import Mathlib

/-!
Formalisation of the computation core of `careerselector.py`: the tiered tax
function `compute_taxes`, the option catalogs, the expense aggregation and
discretionary-income computation, and the waterfall-series construction
(cumulative sums, start/end positions, terminal label and colors).

Python floats are modelled as exact rationals (`ℚ`); dictionaries as
association lists with first-match lookup (keys in every catalog are distinct).
-/

namespace CareerSelector

/-- Tiered tax function, following `compute_taxes` in `careerselector.py`
line by line: each bracket block updates `tax` and `remaining` (here rendered
as a pair of conditional bindings with the bracket's `remaining > limit` test),
returning early once `remaining` reaches 0. -/
def compute_taxes (income : ℚ) : ℚ :=
  if income ≤ 0 then 0
  else
    -- Bracket 1: Up to 20k at 10%
    let tax1 : ℚ := if income > 20000 then 20000 * 0.10 else income * 0.10
    let remaining1 : ℚ := if income > 20000 then income - 20000 else 0
    if remaining1 ≤ 0 then tax1
    else
      -- Bracket 2: 20k to 60k at 15%
      let tax2 : ℚ := if remaining1 > 40000 then tax1 + 40000 * 0.15 else tax1 + remaining1 * 0.15
      let remaining2 : ℚ := if remaining1 > 40000 then remaining1 - 40000 else 0
      if remaining2 ≤ 0 then tax2
      else
        -- Bracket 3: 60k to 120k at 20%
        let tax3 : ℚ := if remaining2 > 60000 then tax2 + 60000 * 0.20 else tax2 + remaining2 * 0.20
        let remaining3 : ℚ := if remaining2 > 60000 then remaining2 - 60000 else 0
        if remaining3 ≤ 0 then tax3
        else
          -- Bracket 4: Above 120k at 25%
          tax3 + remaining3 * 0.25

/-- Reference marginal-bracket sum, written from the spec's bracket table:
10% of the part up to 20,000, 15% of the part between 20,000 and 60,000,
20% of the part between 60,000 and 120,000, 25% of the part above 120,000. -/
def bracket_tax_ref (income : ℚ) : ℚ :=
  0.10 * min (max income 0) 20000
    + 0.15 * min (max (income - 20000) 0) 40000
    + 0.20 * min (max (income - 60000) 0) 60000
    + 0.25 * max (income - 120000) 0

/-- Family status toggle (`st.selectbox("Select Your Family Status:", ...)`). -/
inductive FamilyStatus
  | single
  | familyWithKids
deriving DecidableEq

/-- Career data catalog (section 3.1 of the source). -/
def career_data_raw : List (String × ℚ) :=
  [("Software Engineer", 90000),
   ("Teacher", 45000),
   ("Data Scientist", 100000),
   ("Nurse", 65000),
   ("Accountant", 55000),
   ("Marketing Specialist", 60000)]

/-- Housing catalog: `(annual_rent_or_mortgage, annual_home_insurance)` (section 3.2). -/
def housing_data_raw : List (String × (ℚ × ℚ)) :=
  [("Rent an Apartment", (12000, 150)),
   ("Buy a Cheap House", (18000, 600)),
   ("Buy a Nice House", (30000, 1000))]

/-- Vehicle catalog: `(annual_payment, mpg_estimate)` (section 3.3). -/
def vehicle_data_raw : List (String × (ℚ × ℚ)) :=
  [("No Car (Public Transport)", (1000, 0)),
   ("Used Economy Car", (3000, 30)),
   ("New Economy Car", (5000, 28)),
   ("SUV", (7000, 20)),
   ("Luxury Car", (10000, 18))]

/-- Groceries catalog, with different annual costs for Single vs. Family (section 3.4). -/
def groceries_dict_raw : FamilyStatus → List (String × ℚ)
  | .single =>
    [("Minimal Groceries", 2400),
     ("Basic Groceries", 3600),
     ("Premium Groceries", 6000)]
  | .familyWithKids =>
    [("Minimal Groceries", 3600),
     ("Basic Groceries", 5400),
     ("Premium Groceries", 9000)]

/-- Medical insurance catalog, Single vs. Family rates (section 3.5). -/
def medical_data_raw : FamilyStatus → List (String × ℚ)
  | .single =>
    [("Free", 0),
     ("Basic", 2000),
     ("Premium", 5000)]
  | .familyWithKids =>
    [("Free", 0),
     ("Basic", 3500),
     ("Premium", 7000)]

/-- Phone plan catalog (section 3.6). -/
def phone_data_raw : List (String × ℚ) :=
  [("Basic Phone Plan", 300),
   ("Standard Phone Plan", 600),
   ("Unlimited Premium", 1200)]

/-- Utilities catalog (section 3.7). -/
def utilities_data_raw : List (String × ℚ) :=
  [("Low Utilities", 1800),
   ("Medium Utilities", 3000),
   ("High Utilities", 4800)]

/-- College loan repayment catalog (section 3.8). -/
def loan_data_raw : List (String × ℚ) :=
  [("No Loans", 0),
   ("Low Repayment", 3000),
   ("Medium Repayment", 6000),
   ("High Repayment", 12000)]

/-- Entertainment catalog (section 3.9). -/
def entertainment_data_raw : List (String × ℚ) :=
  [("No Subscriptions", 0),
   ("Basic Streaming & Activities", 600),
   ("Moderate Entertainment", 1500),
   ("High Entertainment", 3000)]

/-- Retirement contribution rate catalog (section 3.10). -/
def retirement_data : List (String × ℚ) :=
  [("None (0%)", 0.00),
   ("5% of Salary", 0.05),
   ("10% of Salary", 0.10),
   ("15% of Salary", 0.15),
   ("20% of Salary", 0.20)]

/-- Childcare catalog, used only for `familyWithKids` (section 3.11). -/
def childcare_data_raw : List (String × ℚ) :=
  [("No Childcare", 0),
   ("Minimal Daycare", 3000),
   ("Premium Daycare", 6000)]

/-- First-match lookup in an association list, modelling Python `dict[key]`
access on catalogs whose keys are distinct. `none` models a raised
`KeyError`. -/
def dictGet {α : Type} : List (String × α) → String → Option α
  | [], _ => none
  | (k, v) :: rest, key => if key = k then some v else dictGet rest key

/-- Error raised when a selected key is absent from its category's catalog
(`KeyError` in the Python source, `UnknownOptionError` in the design spec). -/
inductive ResolveError
  | unknownOption
deriving DecidableEq

/-- Resolve a single-amount category: direct catalog lookup, failing with
`UnknownOptionError` when the selected key is absent; there is no
default-option fallback. -/
def resolveAmount (catalog : List (String × ℚ)) (selected_key : String) :
    Except ResolveError ℚ :=
  match dictGet catalog selected_key with
  | some v => Except.ok v
  | none => Except.error ResolveError.unknownOption

/-- Resolve a two-attribute category (housing, vehicle). -/
def resolvePair (catalog : List (String × (ℚ × ℚ))) (selected_key : String) :
    Except ResolveError (ℚ × ℚ) :=
  match dictGet catalog selected_key with
  | some v => Except.ok v
  | none => Except.error ResolveError.unknownOption

/-- One simulation run's selections: a chosen key per category plus the
driving inputs. `annual_miles` and `gas_price` are the `st.number_input`
values (only read when the vehicle is not "No Car (Public Transport)"). -/
structure Selection where
  family_status : FamilyStatus
  career : String
  housing : String
  vehicle : String
  groceries : String
  medical : String
  childcare : String
  phone : String
  utilities : String
  loan : String
  entertainment : String
  retirement : String
  annual_miles : ℚ
  gas_price : ℚ

/-- Gas cost as computed in section 5 of the source: zero for the no-car
option; otherwise `(annual_miles / vehicle_mpg) * gas_price` when
`vehicle_mpg > 0` (the division happens only under this guard), else zero. -/
def annual_gas_cost (vehicle_key : String) (vehicle_mpg annual_miles gas_price : ℚ) : ℚ :=
  if vehicle_key ≠ "No Car (Public Transport)" then
    if vehicle_mpg > 0 then annual_miles / vehicle_mpg * gas_price else 0
  else 0

/-- Childcare resolution: the childcare selectbox exists only for a family
with kids; a single household gets `annual_childcare_cost = 0`. -/
def resolveChildcare (sel : Selection) : Except ResolveError ℚ :=
  match sel.family_status with
  | .familyWithKids => resolveAmount childcare_data_raw sel.childcare
  | .single => Except.ok 0

/-- The numeric outputs of one run (section 6 of the source). -/
structure Summary where
  annual_salary : ℚ
  tax_amount : ℚ
  annual_housing_cost : ℚ
  annual_home_insurance : ℚ
  annual_vehicle_payment : ℚ
  vehicle_mpg : ℚ
  annual_gas_cost : ℚ
  annual_groceries_cost : ℚ
  annual_medical_cost : ℚ
  annual_childcare_cost : ℚ
  annual_phone_cost : ℚ
  annual_utilities_cost : ℚ
  annual_loan_cost : ℚ
  annual_entertainment_cost : ℚ
  annual_retirement_cost : ℚ
  total_expenses : ℚ
  discretionary_income : ℚ

/-- Assemble the run summary from the resolved catalog values, mirroring
sections 5–6 of the source: gas inputs are forced to 0 for the no-car
option, `annual_retirement_cost = annual_salary * retirement_fraction`,
`total_expenses` is the sum of the eleven expense lines plus retirement, and
`discretionary_income = annual_salary - tax_amount - total_expenses`. -/
def mkSummary (sel : Selection) (annual_salary hc hi vp mpg gro med cc ph ut lo ent rate : ℚ) :
    Summary :=
  let miles := if sel.vehicle ≠ "No Car (Public Transport)" then sel.annual_miles else 0
  let price := if sel.vehicle ≠ "No Car (Public Transport)" then sel.gas_price else 0
  let gas := annual_gas_cost sel.vehicle mpg miles price
  let retirementCost := annual_salary * rate
  let tax := compute_taxes annual_salary
  let total := hc + hi + vp + gas + gro + med + cc + ph + ut + lo + ent + retirementCost
  { annual_salary := annual_salary
    tax_amount := tax
    annual_housing_cost := hc
    annual_home_insurance := hi
    annual_vehicle_payment := vp
    vehicle_mpg := mpg
    annual_gas_cost := gas
    annual_groceries_cost := gro
    annual_medical_cost := med
    annual_childcare_cost := cc
    annual_phone_cost := ph
    annual_utilities_cost := ut
    annual_loan_cost := lo
    annual_entertainment_cost := ent
    annual_retirement_cost := retirementCost
    total_expenses := total
    discretionary_income := annual_salary - tax - total }

/-- Full resolution of a selection, in the source's lookup order; the first
missing key aborts the run with `UnknownOptionError`. -/
def resolve (sel : Selection) : Except ResolveError Summary := do
  let annual_salary ← resolveAmount career_data_raw sel.career
  let hv ← resolvePair housing_data_raw sel.housing
  let vv ← resolvePair vehicle_data_raw sel.vehicle
  let gro ← resolveAmount (groceries_dict_raw sel.family_status) sel.groceries
  let med ← resolveAmount (medical_data_raw sel.family_status) sel.medical
  let cc ← resolveChildcare sel
  let ph ← resolveAmount phone_data_raw sel.phone
  let ut ← resolveAmount utilities_data_raw sel.utilities
  let lo ← resolveAmount loan_data_raw sel.loan
  let ent ← resolveAmount entertainment_data_raw sel.entertainment
  let rate ← resolveAmount retirement_data sel.retirement
  pure (mkSummary sel annual_salary hv.1 hv.2 vv.1 vv.2 gro med cc ph ut lo ent rate)

/-- One row of the waterfall chart: the source's pandas columns Category,
Amount, Start, End (= Cumulative), Label, Color. -/
structure WStep where
  category : String
  amount : ℚ
  start : ℚ
  ending : ℚ
  label : ℚ
  color : String
deriving DecidableEq

/-- Display label (`get_label` in the source): the terminal
"Discretionary Income" row shows the leftover; every other row shows its
cumulative balance. -/
def get_label (discretionary_income : ℚ) (category : String) (cumulative : ℚ) : ℚ :=
  if category = "Discretionary Income" then discretionary_income else cumulative

/-- Bar color (`pick_color` in the source). -/
def pick_color (discretionary_income : ℚ) (cat : String) : String :=
  if cat = "Starting Salary" then "green"
  else if cat = "Discretionary Income" then
    if discretionary_income ≥ 0 then "blue" else "red"
  else "red"

/-- Semantic color classes named by the design spec for the waterfall bars. -/
inductive ColorClass
  | startingSalary
  | negative
  | terminalPositive
  | terminalNegative
deriving DecidableEq

/-- Concrete color string rendered for each semantic class (the source
encodes `startingSalary` as green, `terminalPositive` as blue, and both
terminal-negative and ordinary expense bars as red). -/
def renderColor : ColorClass → String
  | .startingSalary => "green"
  | .negative => "red"
  | .terminalPositive => "blue"
  | .terminalNegative => "red"

/-- Branch structure of the source's `pick_color`, returning the semantic
class instead of the color string. -/
def pick_color_class (discretionary_income : ℚ) (cat : String) : ColorClass :=
  if cat = "Starting Salary" then .startingSalary
  else if cat = "Discretionary Income" then
    if discretionary_income ≥ 0 then .terminalPositive else .terminalNegative
  else .negative

/-- Cumulative construction of the waterfall rows, mirroring
`df_steps["Cumulative"] = cumsum`, `Start = Cumulative.shift(1, fill 0)`,
`End = Cumulative`, plus the Label and Color columns. The accumulator is
the cumulative balance before the current row. -/
def buildSteps (discretionary_income : ℚ) : ℚ → List (String × ℚ) → List WStep
  | _, [] => []
  | cumulative, (cat, amt) :: rest =>
    let c := cumulative + amt
    { category := cat
      amount := amt
      start := cumulative
      ending := c
      label := get_label discretionary_income cat c
      color := pick_color discretionary_income cat } :: buildSteps discretionary_income c rest

/-- The waterfall series of a delta list: cumulative positions starting
from 0 (`fill_value = 0` in the source's shift). -/
def waterfall (discretionary_income : ℚ) (rows : List (String × ℚ)) : List WStep :=
  buildSteps discretionary_income 0 rows

/-- Sum of the signed deltas of a row list. -/
def deltaSum (rows : List (String × ℚ)) : ℚ := (rows.map Prod.snd).sum

/-- End position of the last waterfall row, when there is one. -/
def lastEnding (ws : List WStep) : Option ℚ := (ws.map WStep.ending).getLast?

/-- End position of the second-to-last waterfall row, when there is one. -/
def penultimateEnding (ws : List WStep) : Option ℚ :=
  (ws.dropLast.map WStep.ending).getLast?

/-- Label of the last waterfall row, when there is one. -/
def lastLabel (ws : List WStep) : Option ℚ := (ws.map WStep.label).getLast?

/-- The `data_steps` delta list of section 8 of the source: the positive
starting salary, each tax/expense line negated, and the terminal
"Discretionary Income" row with amount 0. -/
def data_steps (sm : Summary) : List (String × ℚ) :=
  [("Starting Salary", sm.annual_salary),
   ("Taxes", -sm.tax_amount),
   ("Housing", -sm.annual_housing_cost),
   ("Home Insurance", -sm.annual_home_insurance),
   ("Vehicle Payment", -sm.annual_vehicle_payment),
   ("Gas", -sm.annual_gas_cost),
   ("Groceries", -sm.annual_groceries_cost),
   ("Medical Insurance", -sm.annual_medical_cost),
   ("Childcare", -sm.annual_childcare_cost),
   ("Phone Plan", -sm.annual_phone_cost),
   ("Utilities", -sm.annual_utilities_cost),
   ("College Loan", -sm.annual_loan_cost),
   ("Entertainment", -sm.annual_entertainment_cost),
   ("Retirement", -sm.annual_retirement_cost),
   ("Discretionary Income", 0)]

/-- A concrete selection used to exercise the pipeline: single status,
Software Engineer, Rent an Apartment, Used Economy Car, Basic Groceries,
Basic medical, Basic Phone Plan, Low Utilities, no loans or subscriptions,
5% retirement, 10000 miles at $3.50 per gallon. -/
def sample_selection : Selection :=
  { family_status := FamilyStatus.single
    career := "Software Engineer"
    housing := "Rent an Apartment"
    vehicle := "Used Economy Car"
    groceries := "Basic Groceries"
    medical := "Basic"
    childcare := "No Childcare"
    phone := "Basic Phone Plan"
    utilities := "Low Utilities"
    loan := "No Loans"
    entertainment := "No Subscriptions"
    retirement := "5% of Salary"
    annual_miles := 10000
    gas_price := 3.50 }

/-- The summary resolved from `sample_selection`. -/
def sample_summary : Summary :=
  mkSummary sample_selection 90000 12000 150 3000 30 3600 2000 0 300 1800 0 0 0.05

/-- Closed piecewise form of `compute_taxes`, by unfolding the bracket blocks. -/
lemma compute_taxes_eq (x : ℚ) :
    compute_taxes x =
      if x ≤ 0 then 0
      else if x ≤ 20000 then x * 0.10
      else if x ≤ 60000 then 2000 + (x - 20000) * 0.15
      else if x ≤ 120000 then 8000 + (x - 60000) * 0.20
      else 20000 + (x - 120000) * 0.25 := by
  rcases le_or_lt x 0 with h0 | h0
  · simp [compute_taxes, h0]
  · have h0n : ¬ x ≤ 0 := not_le.mpr h0
    rcases le_or_lt x 20000 with h1 | h1
    · have h1n : ¬ (20000 : ℚ) < x := not_lt.mpr h1
      norm_num [compute_taxes, h0n, h1n, h1]
    · have h1p : ¬ (x - 20000 ≤ 0) := by intro h; linarith
      have hni : ¬ x ≤ 20000 := not_le.mpr h1
      rcases le_or_lt x 60000 with h2 | h2
      · have h2n : ¬ (40000 : ℚ) < x - 20000 := by intro h; linarith
        norm_num [compute_taxes, h0n, h1, h1p, h2n, hni, h2]
      · have h2p : ¬ (x - 20000 - 40000 ≤ 0) := by intro h; linarith
        have h2l : (40000 : ℚ) < x - 20000 := by linarith
        rcases le_or_lt x 120000 with h3 | h3
        · have h3n : ¬ (60000 : ℚ) < x - 20000 - 40000 := by intro h; linarith
          have hni2 : ¬ x ≤ 60000 := not_le.mpr h2
          norm_num [compute_taxes, h0n, h1, h1p, h2l, h2p, h3n, hni, hni2, h3]
          ring
        · have h3l : (60000 : ℚ) < x - 20000 - 40000 := by linarith
          have h3p : ¬ (x - 20000 - 40000 - 60000 ≤ 0) := by intro h; linarith
          have hni2 : ¬ x ≤ 60000 := not_le.mpr h2
          have hni3 : ¬ x ≤ 120000 := not_le.mpr h3
          norm_num [compute_taxes, h0n, h1, h1p, h2l, h2p, h3l, h3p, hni, hni2, hni3]
          ring

/-- `compute_taxes` agrees with the reference bracket sum everywhere. -/
lemma compute_taxes_eq_ref (x : ℚ) : compute_taxes x = bracket_tax_ref x := by
  rw [compute_taxes_eq, bracket_tax_ref]
  rcases le_or_lt x 0 with h0 | h0
  · rw [if_pos h0, max_eq_right h0, max_eq_right (by linarith), max_eq_right (by linarith),
      max_eq_right (by linarith)]
    norm_num
  · rw [if_neg (by linarith)]
    rcases le_or_lt x 20000 with h1 | h1
    · rw [if_pos h1, max_eq_left h0.le, min_eq_left h1, max_eq_right (by linarith),
        max_eq_right (by linarith), max_eq_right (by linarith)]
      ring_nf
      norm_num
    · rw [if_neg (by linarith), max_eq_left h0.le, min_eq_right (by linarith)]
      rcases le_or_lt x 60000 with h2 | h2
      · rw [if_pos h2, max_eq_left (by linarith), min_eq_left (by linarith),
          max_eq_right (by linarith), max_eq_right (by linarith)]
        ring_nf
        norm_num
      · rw [if_neg (by linarith), max_eq_left (by linarith), min_eq_right (by linarith)]
        rcases le_or_lt x 120000 with h3 | h3
        · rw [if_pos h3, max_eq_left (by linarith), min_eq_left (by linarith),
            max_eq_right (by linarith)]
          ring_nf
        · rw [if_neg (by linarith), max_eq_left (by linarith), min_eq_right (by linarith),
            max_eq_left (by linarith)]
          ring_nf

/-- Bind of a successful `Except` computation. -/
lemma ok_bind {α β : Type} (a : α) (f : α → Except ResolveError β) :
    (Except.ok a >>= f) = f a := rfl

/-- Bind of a failed `Except` computation propagates the error. -/
lemma error_bind {α β : Type} (e : ResolveError) (f : α → Except ResolveError β) :
    ((Except.error e : Except ResolveError α) >>= f) = Except.error e := rfl

/-- A successful `dictGet` returns a pair of the association list. -/
lemma dictGet_mem {α : Type} {d : List (String × α)} {k : String} {v : α}
    (h : dictGet d k = some v) : (k, v) ∈ d := by
  induction d with
  | nil => simp [dictGet] at h
  | cons p rest ih =>
    obtain ⟨k', v'⟩ := p
    rw [dictGet] at h
    by_cases hk : k = k'
    · rw [if_pos hk] at h
      injection h with h'
      subst hk
      subst h'
      exact List.mem_cons_self _ _
    · rw [if_neg hk] at h
      exact List.mem_cons_of_mem _ (ih h)

/-- A key that is in the association list (with distinct keys) is found. -/
lemma dictGet_of_mem {α : Type} {d : List (String × α)} {k : String} {v : α}
    (hnd : (d.map Prod.fst).Nodup) (hm : (k, v) ∈ d) : dictGet d k = some v := by
  induction d with
  | nil => simp at hm
  | cons p rest ih =>
    obtain ⟨k', v'⟩ := p
    simp only [List.map_cons, List.nodup_cons] at hnd
    rcases List.mem_cons.mp hm with heq | hm'
    · obtain ⟨rfl, rfl⟩ := Prod.mk.injEq .. ▸ heq
      simp [dictGet]
    · have hk : k ≠ k' := by
        rintro rfl
        exact hnd.1 (List.mem_map.mpr ⟨(k, v), hm', rfl⟩)
      rw [dictGet, if_neg hk]
      exact ih hnd.2 hm'

/-- A missing key makes `dictGet` return `none`. -/
lemma dictGet_eq_none {α : Type} {d : List (String × α)} {k : String}
    (h : k ∉ d.map Prod.fst) : dictGet d k = none := by
  induction d with
  | nil => rfl
  | cons p rest ih =>
    obtain ⟨k', v'⟩ := p
    simp only [List.map_cons, List.mem_cons, not_or] at h
    rw [dictGet, if_neg h.1]
    exact ih h.2

/-- A successful single-amount resolution comes from the catalog. -/
lemma resolveAmount_ok_mem {catalog : List (String × ℚ)} {k : String} {v : ℚ}
    (h : resolveAmount catalog k = Except.ok v) : (k, v) ∈ catalog := by
  unfold resolveAmount at h
  cases hd : dictGet catalog k with
  | none => rw [hd] at h; exact Except.noConfusion h
  | some w =>
    rw [hd] at h
    injection h with h'
    subst h'
    exact dictGet_mem hd

/-- A successful two-attribute resolution comes from the catalog. -/
lemma resolvePair_ok_mem {catalog : List (String × (ℚ × ℚ))} {k : String} {v : ℚ × ℚ}
    (h : resolvePair catalog k = Except.ok v) : (k, v) ∈ catalog := by
  unfold resolvePair at h
  cases hd : dictGet catalog k with
  | none => rw [hd] at h; exact Except.noConfusion h
  | some w =>
    rw [hd] at h
    injection h with h'
    subst h'
    exact dictGet_mem hd

/-- Concatenating the delta of one more row. -/
lemma deltaSum_concat (xs : List (String × ℚ)) (p : String × ℚ) :
    deltaSum (xs ++ [p]) = deltaSum xs + p.2 := by
  simp [deltaSum]

/-- `buildSteps` over an append: the second part starts at the cumulative
balance reached by the first. -/
lemma buildSteps_append (d : ℚ) (ys : List (String × ℚ)) :
    ∀ (xs : List (String × ℚ)) (acc : ℚ),
      buildSteps d acc (xs ++ ys) =
        buildSteps d acc xs ++ buildSteps d (acc + deltaSum xs) ys := by
  intro xs
  induction xs with
  | nil =>
    intro acc
    simp [buildSteps, deltaSum]
  | cons p rest ih =>
    intro acc
    obtain ⟨cat, amt⟩ := p
    simp only [List.cons_append, buildSteps, List.append_eq]
    rw [ih (acc + amt)]
    have hsum : acc + amt + deltaSum rest = acc + deltaSum ((cat, amt) :: rest) := by
      simp [deltaSum]
      ring
    rw [hsum]

/-- The waterfall of `xs ++ [p]`: the final row starts at the total of `xs`. -/
lemma waterfall_concat (d : ℚ) (xs : List (String × ℚ)) (cat : String) (amt : ℚ) :
    waterfall d (xs ++ [(cat, amt)]) =
      waterfall d xs ++
        [{ category := cat
           amount := amt
           start := deltaSum xs
           ending := deltaSum xs + amt
           label := get_label d cat (deltaSum xs + amt)
           color := pick_color d cat }] := by
  unfold waterfall
  rw [buildSteps_append]
  simp [buildSteps]

/-- The last row of a nonempty waterfall ends at the sum of all deltas. -/
lemma lastEnding_waterfall (d : ℚ) {rows : List (String × ℚ)} (h : rows ≠ []) :
    lastEnding (waterfall d rows) = some (deltaSum rows) := by
  rcases List.eq_nil_or_concat rows with hnil | ⟨xs, p, hcat⟩
  · exact absurd hnil h
  · obtain ⟨cat, amt⟩ := p
    rw [hcat, List.concat_eq_append, waterfall_concat]
    unfold lastEnding
    rw [List.map_append]
    simp [List.getLast?_concat, deltaSum_concat]

/-- Dropping the terminal row of a waterfall of `xs ++ [p]` leaves the
waterfall of `xs`. -/
lemma waterfall_dropLast (d : ℚ) (xs : List (String × ℚ)) (cat : String) (amt : ℚ) :
    (waterfall d (xs ++ [(cat, amt)])).dropLast = waterfall d xs := by
  rw [waterfall_concat, List.dropLast_concat]

/-- The label of the last row of a waterfall of `xs ++ [p]`. -/
lemma lastLabel_waterfall_concat (d : ℚ) (xs : List (String × ℚ)) (cat : String) (amt : ℚ) :
    lastLabel (waterfall d (xs ++ [(cat, amt)])) =
      some (get_label d cat (deltaSum xs + amt)) := by
  unfold lastLabel
  rw [waterfall_concat, List.map_append]
  simp [List.getLast?_concat]

/-- Each built row's color column is `pick_color` of its own category, and
its category is one of the input categories. -/
lemma buildSteps_color (d : ℚ) :
    ∀ (rows : List (String × ℚ)) (acc : ℚ) (st : WStep),
      st ∈ buildSteps d acc rows →
        st.color = pick_color d st.category ∧ st.category ∈ rows.map Prod.fst := by
  intro rows
  induction rows with
  | nil =>
    intro acc st h
    simp [buildSteps] at h
  | cons p rest ih =>
    intro acc st h
    obtain ⟨cat, amt⟩ := p
    simp only [buildSteps, List.mem_cons] at h
    rcases h with rfl | h
    · exact ⟨rfl, by simp⟩
    · obtain ⟨h1, h2⟩ := ih (acc + amt) st h
      exact ⟨h1, by simp [h2]⟩

/-- `pick_color` is the rendering of the semantic class of the bar. -/
lemma pick_color_eq_render (d : ℚ) (cat : String) :
    pick_color d cat = renderColor (pick_color_class d cat) := by
  unfold pick_color pick_color_class
  split_ifs <;> rfl

/-- `pure` in the `Except` monad is `Except.ok`. -/
lemma except_pure {α : Type} (a : α) : (pure a : Except ResolveError α) = Except.ok a := rfl

/-- Inversion of a successful run: every category's lookup succeeded and the
summary is assembled by `mkSummary` from the looked-up values. -/
lemma resolve_ok_inv {sel : Selection} {sm : Summary} (h : resolve sel = Except.ok sm) :
    ∃ (annual_salary : ℚ) (hv vv : ℚ × ℚ) (gro med cc ph ut lo ent rate : ℚ),
      resolveAmount career_data_raw sel.career = Except.ok annual_salary ∧
      resolvePair housing_data_raw sel.housing = Except.ok hv ∧
      resolvePair vehicle_data_raw sel.vehicle = Except.ok vv ∧
      resolveAmount (groceries_dict_raw sel.family_status) sel.groceries = Except.ok gro ∧
      resolveAmount (medical_data_raw sel.family_status) sel.medical = Except.ok med ∧
      resolveChildcare sel = Except.ok cc ∧
      resolveAmount phone_data_raw sel.phone = Except.ok ph ∧
      resolveAmount utilities_data_raw sel.utilities = Except.ok ut ∧
      resolveAmount loan_data_raw sel.loan = Except.ok lo ∧
      resolveAmount entertainment_data_raw sel.entertainment = Except.ok ent ∧
      resolveAmount retirement_data sel.retirement = Except.ok rate ∧
      sm = mkSummary sel annual_salary hv.1 hv.2 vv.1 vv.2 gro med cc ph ut lo ent rate := by
  unfold resolve at h
  cases h1 : resolveAmount career_data_raw sel.career with
  | error e => simp only [h1, error_bind] at h; exact Except.noConfusion h
  | ok annual_salary =>
  simp only [h1, ok_bind] at h
  cases h2 : resolvePair housing_data_raw sel.housing with
  | error e => simp only [h2, error_bind] at h; exact Except.noConfusion h
  | ok hv =>
  simp only [h2, ok_bind] at h
  cases h3 : resolvePair vehicle_data_raw sel.vehicle with
  | error e => simp only [h3, error_bind] at h; exact Except.noConfusion h
  | ok vv =>
  simp only [h3, ok_bind] at h
  cases h4 : resolveAmount (groceries_dict_raw sel.family_status) sel.groceries with
  | error e => simp only [h4, error_bind] at h; exact Except.noConfusion h
  | ok gro =>
  simp only [h4, ok_bind] at h
  cases h5 : resolveAmount (medical_data_raw sel.family_status) sel.medical with
  | error e => simp only [h5, error_bind] at h; exact Except.noConfusion h
  | ok med =>
  simp only [h5, ok_bind] at h
  cases h6 : resolveChildcare sel with
  | error e => simp only [h6, error_bind] at h; exact Except.noConfusion h
  | ok cc =>
  simp only [h6, ok_bind] at h
  cases h7 : resolveAmount phone_data_raw sel.phone with
  | error e => simp only [h7, error_bind] at h; exact Except.noConfusion h
  | ok ph =>
  simp only [h7, ok_bind] at h
  cases h8 : resolveAmount utilities_data_raw sel.utilities with
  | error e => simp only [h8, error_bind] at h; exact Except.noConfusion h
  | ok ut =>
  simp only [h8, ok_bind] at h
  cases h9 : resolveAmount loan_data_raw sel.loan with
  | error e => simp only [h9, error_bind] at h; exact Except.noConfusion h
  | ok lo =>
  simp only [h9, ok_bind] at h
  cases h10 : resolveAmount entertainment_data_raw sel.entertainment with
  | error e => simp only [h10, error_bind] at h; exact Except.noConfusion h
  | ok ent =>
  simp only [h10, ok_bind] at h
  cases h11 : resolveAmount retirement_data sel.retirement with
  | error e => simp only [h11, error_bind] at h; exact Except.noConfusion h
  | ok rate =>
  simp only [h11, ok_bind, except_pure] at h
  exact ⟨annual_salary, hv, vv, gro, med, cc, ph, ut, lo, ent, rate,
    rfl, rfl, rfl, rfl, rfl, rfl, rfl, rfl, rfl, rfl, rfl, (Except.ok.inj h).symm⟩

/-- All career salaries are nonnegative. -/
lemma career_data_nonneg : ∀ p ∈ career_data_raw, (0:ℚ) ≤ p.2 := by
  norm_num [career_data_raw]

/-- All housing costs and insurance add-ons are nonnegative. -/
lemma housing_data_nonneg : ∀ p ∈ housing_data_raw, (0:ℚ) ≤ p.2.1 ∧ (0:ℚ) ≤ p.2.2 := by
  norm_num [housing_data_raw]

/-- All vehicle payments and mpg figures are nonnegative. -/
lemma vehicle_data_nonneg : ∀ p ∈ vehicle_data_raw, (0:ℚ) ≤ p.2.1 ∧ (0:ℚ) ≤ p.2.2 := by
  norm_num [vehicle_data_raw]

/-- All groceries costs are nonnegative, for both family statuses. -/
lemma groceries_dict_nonneg : ∀ fs, ∀ p ∈ groceries_dict_raw fs, (0:ℚ) ≤ p.2 := by
  intro fs
  cases fs <;> norm_num [groceries_dict_raw]

/-- All medical costs are nonnegative, for both family statuses. -/
lemma medical_data_nonneg : ∀ fs, ∀ p ∈ medical_data_raw fs, (0:ℚ) ≤ p.2 := by
  intro fs
  cases fs <;> norm_num [medical_data_raw]

/-- All phone plan costs are nonnegative. -/
lemma phone_data_nonneg : ∀ p ∈ phone_data_raw, (0:ℚ) ≤ p.2 := by
  norm_num [phone_data_raw]

/-- All utilities costs are nonnegative. -/
lemma utilities_data_nonneg : ∀ p ∈ utilities_data_raw, (0:ℚ) ≤ p.2 := by
  norm_num [utilities_data_raw]

/-- All loan repayments are nonnegative. -/
lemma loan_data_nonneg : ∀ p ∈ loan_data_raw, (0:ℚ) ≤ p.2 := by
  norm_num [loan_data_raw]

/-- All entertainment costs are nonnegative. -/
lemma entertainment_data_nonneg : ∀ p ∈ entertainment_data_raw, (0:ℚ) ≤ p.2 := by
  norm_num [entertainment_data_raw]

/-- All retirement rates are nonnegative. -/
lemma retirement_data_nonneg : ∀ p ∈ retirement_data, (0:ℚ) ≤ p.2 := by
  norm_num [retirement_data]

/-- All childcare costs are nonnegative. -/
lemma childcare_data_nonneg : ∀ p ∈ childcare_data_raw, (0:ℚ) ≤ p.2 := by
  norm_num [childcare_data_raw]

/-- A successful childcare resolution yields a nonnegative cost. -/
lemma resolveChildcare_nonneg {sel : Selection} {cc : ℚ}
    (h : resolveChildcare sel = Except.ok cc) : 0 ≤ cc := by
  unfold resolveChildcare at h
  cases hfs : sel.family_status with
  | single =>
    rw [hfs] at h
    injection h with h'
    exact h' ▸ le_refl 0
  | familyWithKids =>
    rw [hfs] at h
    exact childcare_data_nonneg _ (resolveAmount_ok_mem h)

/-- Gas cost is nonnegative for nonnegative mpg, mileage and price. -/
lemma annual_gas_cost_nonneg {key : String} {mpg miles price : ℚ}
    (hmpg : 0 ≤ mpg) (hm : 0 ≤ miles) (hp : 0 ≤ price) :
    0 ≤ annual_gas_cost key mpg miles price := by
  unfold annual_gas_cost
  split_ifs
  · exact mul_nonneg (div_nonneg hm hmpg) hp
  · exact le_refl 0
  · exact le_refl 0

/-- The tax function is monotone in income. -/
lemma compute_taxes_mono {a b : ℚ} (h : a ≤ b) : compute_taxes a ≤ compute_taxes b := by
  rw [compute_taxes_eq_ref, compute_taxes_eq_ref]
  unfold bracket_tax_ref
  have m1 : min (max a 0) 20000 ≤ min (max b 0) 20000 :=
    min_le_min (max_le_max h le_rfl) le_rfl
  have m2 : min (max (a - 20000) 0) 40000 ≤ min (max (b - 20000) 0) 40000 :=
    min_le_min (max_le_max (by linarith) le_rfl) le_rfl
  have m3 : min (max (a - 60000) 0) 60000 ≤ min (max (b - 60000) 0) 60000 :=
    min_le_min (max_le_max (by linarith) le_rfl) le_rfl
  have m4 : max (a - 120000) 0 ≤ max (b - 120000) 0 :=
    max_le_max (by linarith) le_rfl
  linarith

/-- The tax on a nonnegative income is at most a quarter of it. -/
lemma compute_taxes_le (x : ℚ) (hx : 0 ≤ x) : compute_taxes x ≤ 0.25 * x := by
  rw [compute_taxes_eq]
  split_ifs <;> linarith

/-- The end position of the second-to-last row of a waterfall whose last
row is `p` is the delta total of the preceding rows. -/
lemma penultimateEnding_concat (d : ℚ) {xs : List (String × ℚ)} (cat : String) (amt : ℚ)
    (h : xs ≠ []) :
    penultimateEnding (waterfall d (xs ++ [(cat, amt)])) = some (deltaSum xs) := by
  unfold penultimateEnding
  rw [waterfall_dropLast]
  exact lastEnding_waterfall d h

/-- Resolving the sample selection succeeds with the sample summary. -/
lemma resolve_sample : resolve sample_selection = Except.ok sample_summary := by
  simp [resolve, resolveAmount, resolvePair, resolveChildcare, dictGet, sample_selection,
    sample_summary, ok_bind, except_pure, career_data_raw, housing_data_raw, vehicle_data_raw,
    groceries_dict_raw, medical_data_raw, phone_data_raw, utilities_data_raw, loan_data_raw,
    entertainment_data_raw, retirement_data, childcare_data_raw]

/-- C1: `compute_taxes` computes a marginal-bracket tax: it agrees with the
reference bracket sum (10% of the part up to 20,000, 15% of the part from
20,000 to 60,000, 20% of the part from 60,000 to 120,000, 25% of the part
above 120,000) for every income; it is 0 for every income ≤ 0, and it maps
10000 ↦ 1000, 20000 ↦ 2000, 60000 ↦ 8000, 120000 ↦ 20000, 150000 ↦ 27500. -/
theorem compute_taxes_is_bracket_sum :
    (∀ income : ℚ, compute_taxes income = bracket_tax_ref income) ∧
    (∀ income : ℚ, income ≤ 0 → compute_taxes income = 0) ∧
    compute_taxes 10000 = 1000 ∧
    compute_taxes 20000 = 2000 ∧
    compute_taxes 60000 = 8000 ∧
    compute_taxes 120000 = 20000 ∧
    compute_taxes 150000 = 27500 := by
  refine ⟨compute_taxes_eq_ref, ?_, ?_, ?_, ?_, ?_, ?_⟩
  · intro income h
    rw [compute_taxes_eq, if_pos h]
  · rw [compute_taxes_eq]
    norm_num
  · rw [compute_taxes_eq]
    norm_num
  · rw [compute_taxes_eq]
    norm_num
  · rw [compute_taxes_eq]
    norm_num
  · rw [compute_taxes_eq]
    norm_num

/-- Witness for C1 at concrete inputs: the bracket-sum equality at 90000 and
the zero-tax clause at −5. -/
theorem compute_taxes_is_bracket_sum_witness :
    compute_taxes 90000 = bracket_tax_ref 90000 ∧
    ((-5 : ℚ) ≤ 0 ∧ compute_taxes (-5) = 0) :=
  ⟨compute_taxes_is_bracket_sum.1 90000,
   by norm_num, compute_taxes_is_bracket_sum.2.1 (-5) (by norm_num)⟩

/-- C5: the derived fuel cost for a catalog vehicle equals
`(annual_distance / fuel_efficiency) * price_per_unit` when its fuel
efficiency is positive, and is exactly 0 when its fuel efficiency is 0,
regardless of distance and price; concretely, efficiency 25, distance 10000
and price 4.00 give fuel cost 1600. -/
theorem fuel_cost_guarded :
    (∀ (key : String) (pay mpg miles price : ℚ),
        dictGet vehicle_data_raw key = some (pay, mpg) →
          (0 < mpg → annual_gas_cost key mpg miles price = miles / mpg * price) ∧
          (mpg = 0 → annual_gas_cost key mpg miles price = 0)) ∧
    (∀ key : String, key ≠ "No Car (Public Transport)" →
        annual_gas_cost key 25 10000 4 = 1600) := by
  constructor
  · intro key pay mpg miles price hd
    have hmem := dictGet_mem hd
    constructor
    · intro hmpg
      have hkey : key ≠ "No Car (Public Transport)" := by
        simp only [vehicle_data_raw, List.mem_cons, List.not_mem_nil, or_false,
          Prod.mk.injEq] at hmem
        rcases hmem with ⟨_, _, h0⟩ | ⟨hk, _⟩ | ⟨hk, _⟩ | ⟨hk, _⟩ | ⟨hk, _⟩
        · rw [← h0] at hmpg
          exact absurd hmpg (by norm_num)
        all_goals subst hk
        all_goals simp
      unfold annual_gas_cost
      rw [if_pos hkey, if_pos hmpg]
    · intro h0
      unfold annual_gas_cost
      split_ifs with h1 h2
      · rw [h0] at h2
        exact absurd h2 (by norm_num)
      · rfl
      · rfl
  · intro key hkey
    unfold annual_gas_cost
    rw [if_pos hkey, if_pos (by norm_num : (25:ℚ) > 0)]
    norm_num

/-- Witness for C5: the SUV (mpg 20) with 1500 miles at $3, and the generic
concrete case for a non-"No Car" key. -/
theorem fuel_cost_guarded_witness :
    (dictGet vehicle_data_raw "SUV" = some (7000, 20) ∧ (0 : ℚ) < 20 ∧
      annual_gas_cost "SUV" 20 1500 3 = 1500 / 20 * 3) ∧
    (("SUV" : String) ≠ "No Car (Public Transport)" ∧
      annual_gas_cost "SUV" 25 10000 4 = 1600) :=
  ⟨⟨by simp [vehicle_data_raw, dictGet], by norm_num,
    (fuel_cost_guarded.1 "SUV" 7000 20 1500 3 (by simp [vehicle_data_raw, dictGet])).1
      (by norm_num)⟩,
   by simp, fuel_cost_guarded.2 "SUV" (by simp)⟩

/-- C6: for a single-amount category, resolving a selected key that is absent
from the category's catalog fails with `UnknownOptionError` (no default
fallback), and resolving a key present in the catalog returns its amount. -/
theorem unknown_option_resolution :
    (∀ (catalog : List (String × ℚ)) (selected_key : String),
        selected_key ∉ catalog.map Prod.fst →
          resolveAmount catalog selected_key = Except.error ResolveError.unknownOption) ∧
    (∀ (catalog : List (String × ℚ)) (selected_key : String) (v : ℚ),
        (catalog.map Prod.fst).Nodup → (selected_key, v) ∈ catalog →
          resolveAmount catalog selected_key = Except.ok v) := by
  constructor
  · intro catalog key h
    unfold resolveAmount
    rw [dictGet_eq_none h]
  · intro catalog key v hnd hm
    unfold resolveAmount
    rw [dictGet_of_mem hnd hm]

/-- Witness for C6: the key "Landline" is absent from the phone catalog and
resolution fails; "Basic Phone Plan" is present and resolves to 300. -/
theorem unknown_option_resolution_witness :
    (("Landline" : String) ∉ phone_data_raw.map Prod.fst ∧
      resolveAmount phone_data_raw "Landline" = Except.error ResolveError.unknownOption) ∧
    ((phone_data_raw.map Prod.fst).Nodup ∧ ("Basic Phone Plan", (300:ℚ)) ∈ phone_data_raw ∧
      resolveAmount phone_data_raw "Basic Phone Plan" = Except.ok 300) :=
  ⟨⟨by simp [phone_data_raw],
    unknown_option_resolution.1 phone_data_raw "Landline" (by simp [phone_data_raw])⟩,
   by simp [phone_data_raw], by simp [phone_data_raw],
   unknown_option_resolution.2 phone_data_raw "Basic Phone Plan" 300
     (by simp [phone_data_raw]) (by simp [phone_data_raw])⟩

/-- C7: `compute_taxes` is non-decreasing: incomes `a ≤ b` give
`compute_taxes a ≤ compute_taxes b`. -/
theorem compute_taxes_nondecreasing (a b : ℚ) (h : a ≤ b) :
    compute_taxes a ≤ compute_taxes b :=
  compute_taxes_mono h

/-- Witness for C7 at 30000 ≤ 130000. -/
theorem compute_taxes_nondecreasing_witness :
    (30000 : ℚ) ≤ 130000 ∧ compute_taxes 30000 ≤ compute_taxes 130000 :=
  ⟨by norm_num, compute_taxes_nondecreasing 30000 130000 (by norm_num)⟩

/-- C9: for every income ≥ 0 the tax is at most a quarter of the income, so
the tax never exceeds the income, and salary minus tax is nonnegative for
every catalog salary. -/
theorem tax_at_most_quarter :
    (∀ income : ℚ, 0 ≤ income → compute_taxes income ≤ 0.25 * income) ∧
    (∀ p ∈ career_data_raw,
        compute_taxes p.2 ≤ p.2 ∧ 0 ≤ p.2 - compute_taxes p.2) := by
  constructor
  · exact fun x hx => compute_taxes_le x hx
  · intro p hp
    have h0 : 0 ≤ p.2 := career_data_nonneg p hp
    have h1 := compute_taxes_le p.2 h0
    constructor <;> linarith

/-- Witness for C9 at income 90000. -/
theorem tax_at_most_quarter_witness :
    (0 : ℚ) ≤ 90000 ∧ compute_taxes 90000 ≤ 0.25 * 90000 :=
  ⟨by norm_num, tax_at_most_quarter.1 90000 (by norm_num)⟩

/-- C2: for every well-formed waterfall input (positive starting salary
first, nonpositive intermediate deltas, terminal delta exactly 0), the sum
of all deltas equals the last step's end, the last step's end equals the
second-to-last step's end, and the last step's label equals the
caller-supplied terminal label value exactly, even when negative. -/
theorem waterfall_terminal_invariants (d salary : ℚ) (mids : List (String × ℚ))
    (hsal : 0 < salary) (hmid : ∀ p ∈ mids, p.2 ≤ 0) :
    lastEnding
        (waterfall d ((("Starting Salary", salary) :: mids) ++ [("Discretionary Income", 0)])) =
      some (deltaSum ((("Starting Salary", salary) :: mids) ++ [("Discretionary Income", 0)])) ∧
    penultimateEnding
        (waterfall d ((("Starting Salary", salary) :: mids) ++ [("Discretionary Income", 0)])) =
      lastEnding
        (waterfall d ((("Starting Salary", salary) :: mids) ++ [("Discretionary Income", 0)])) ∧
    lastLabel
        (waterfall d ((("Starting Salary", salary) :: mids) ++ [("Discretionary Income", 0)])) =
      some d := by
  refine ⟨lastEnding_waterfall d (by simp), ?_, ?_⟩
  · rw [penultimateEnding_concat d _ _ (by simp), lastEnding_waterfall d (by simp),
      deltaSum_concat]
    norm_num
  · rw [lastLabel_waterfall_concat]
    simp [get_label]

/-- Witness for C2: salary 100, one tax delta −160, negative terminal label
−60 (the true leftover). -/
theorem waterfall_terminal_invariants_witness :
    ((0 : ℚ) < 100 ∧ (-160 : ℚ) ≤ 0) ∧
    (lastEnding
        (waterfall (-60)
          ((("Starting Salary", (100:ℚ)) :: [("Taxes", -160)]) ++ [("Discretionary Income", 0)])) =
      some (deltaSum
        ((("Starting Salary", (100:ℚ)) :: [("Taxes", -160)]) ++ [("Discretionary Income", 0)])) ∧
    penultimateEnding
        (waterfall (-60)
          ((("Starting Salary", (100:ℚ)) :: [("Taxes", -160)]) ++ [("Discretionary Income", 0)])) =
      lastEnding
        (waterfall (-60)
          ((("Starting Salary", (100:ℚ)) :: [("Taxes", -160)]) ++ [("Discretionary Income", 0)])) ∧
    lastLabel
        (waterfall (-60)
          ((("Starting Salary", (100:ℚ)) :: [("Taxes", -160)]) ++ [("Discretionary Income", 0)])) =
      some (-60)) :=
  ⟨⟨by norm_num, by norm_num⟩,
   waterfall_terminal_invariants (-60) 100 [("Taxes", -160)] (by norm_num) (by norm_num)⟩

/-- C8: in every built series the first (starting-salary) step gets the
"starting" class (green), the terminal step gets "terminal-positive" (blue)
when the terminal label value is ≥ 0 and "terminal-negative" (red)
otherwise, and every other step gets the "negative" expense/tax class (red)
regardless of its numeric sign. -/
theorem waterfall_color_classification (d salary : ℚ) (mids : List (String × ℚ))
    (hmid : ∀ p ∈ mids, p.1 ≠ "Starting Salary" ∧ p.1 ≠ "Discretionary Income") :
    ((waterfall d
        ((("Starting Salary", salary) :: mids) ++ [("Discretionary Income", 0)])).head?).map
        WStep.color =
      some (renderColor ColorClass.startingSalary) ∧
    ((waterfall d
        ((("Starting Salary", salary) :: mids) ++ [("Discretionary Income", 0)])).getLast?).map
        WStep.color =
      some (renderColor
        (if 0 ≤ d then ColorClass.terminalPositive else ColorClass.terminalNegative)) ∧
    ∀ st ∈ ((waterfall d
        ((("Starting Salary", salary) :: mids) ++ [("Discretionary Income", 0)])).dropLast).tail,
      st.color = renderColor ColorClass.negative := by
  refine ⟨?_, ?_, ?_⟩
  · simp only [List.cons_append, waterfall, buildSteps]
    simp [pick_color, renderColor]
  · rw [waterfall_concat, List.getLast?_concat]
    by_cases hd : 0 ≤ d
    · simp [pick_color, renderColor, hd, ge_iff_le]
    · simp [pick_color, renderColor, hd, ge_iff_le]
  · intro st hst
    rw [waterfall_dropLast] at hst
    have htail : (waterfall d (("Starting Salary", salary) :: mids)).tail
        = buildSteps d (0 + salary) mids := rfl
    rw [htail] at hst
    obtain ⟨hcol, hcat⟩ := buildSteps_color d mids (0 + salary) st hst
    obtain ⟨p, hp, hpe⟩ := List.mem_map.mp hcat
    obtain ⟨hp1, hp2⟩ := hmid p hp
    rw [hcol, ← hpe]
    unfold pick_color
    rw [if_neg hp1, if_neg hp2]
    rfl

/-- Witness for C8: salary 100, one tax delta −40, terminal label 36: the
first bar is green (starting) and the terminal bar is blue
(terminal-positive). -/
theorem waterfall_color_classification_witness :
    (("Taxes" : String) ≠ "Starting Salary" ∧ ("Taxes" : String) ≠ "Discretionary Income") ∧
    (((waterfall 36
        ((("Starting Salary", (100:ℚ)) :: [("Taxes", (-40:ℚ))]) ++
          [("Discretionary Income", 0)])).head?).map WStep.color =
      some (renderColor ColorClass.startingSalary) ∧
    ((waterfall 36
        ((("Starting Salary", (100:ℚ)) :: [("Taxes", (-40:ℚ))]) ++
          [("Discretionary Income", 0)])).getLast?).map WStep.color =
      some (renderColor
        (if (0:ℚ) ≤ 36 then ColorClass.terminalPositive else ColorClass.terminalNegative))) :=
  ⟨by simp,
   (waterfall_color_classification 36 100 [("Taxes", (-40:ℚ))] (by simp)).1,
   (waterfall_color_classification 36 100 [("Taxes", (-40:ℚ))] (by simp)).2.1⟩

/-- C3: for every resolvable selection with nonnegative driving inputs, the
sum of the non-terminal waterfall deltas (positive salary plus the negated
tax/expense deltas) equals `annual_salary - tax_amount - total_expenses`
exactly (the discretionary income), and the terminal step's delta is 0. -/
theorem nonterminal_deltas_sum (sel : Selection) (sm : Summary)
    (h : resolve sel = Except.ok sm)
    (hm : 0 ≤ sel.annual_miles) (hp : 0 ≤ sel.gas_price) :
    deltaSum (data_steps sm).dropLast =
      sm.annual_salary - sm.tax_amount - sm.total_expenses ∧
    ((data_steps sm).getLast?).map Prod.snd = some 0 := by
  obtain ⟨a, hv, vv, gro, med, cc, ph, ut, lo, ent, rate,
    _, _, _, _, _, _, _, _, _, _, _, hsm⟩ := resolve_ok_inv h
  subst hsm
  constructor
  · simp [data_steps, deltaSum, mkSummary, List.dropLast]
    ring
  · simp [data_steps, List.getLast?_cons_cons]

/-- Witness for C3: the sample selection resolves and the delta sum equals
its discretionary income. -/
theorem nonterminal_deltas_sum_witness :
    (resolve sample_selection = Except.ok sample_summary ∧
      (0:ℚ) ≤ sample_selection.annual_miles ∧ (0:ℚ) ≤ sample_selection.gas_price) ∧
    (deltaSum (data_steps sample_summary).dropLast =
      sample_summary.annual_salary - sample_summary.tax_amount -
        sample_summary.total_expenses ∧
    ((data_steps sample_summary).getLast?).map Prod.snd = some 0) :=
  ⟨⟨resolve_sample, by norm_num [sample_selection], by norm_num [sample_selection]⟩,
   nonterminal_deltas_sum sample_selection sample_summary resolve_sample
     (by norm_num [sample_selection]) (by norm_num [sample_selection])⟩

/-- C10: for every resolvable selection with nonnegative annual-miles and
gas-price inputs, `total_expenses` is nonnegative, and therefore
`discretionary_income ≤ annual_salary - tax_amount`. -/
theorem total_expenses_nonneg (sel : Selection) (sm : Summary)
    (h : resolve sel = Except.ok sm)
    (hm : 0 ≤ sel.annual_miles) (hp : 0 ≤ sel.gas_price) :
    0 ≤ sm.total_expenses ∧
    sm.discretionary_income ≤ sm.annual_salary - sm.tax_amount := by
  obtain ⟨a, hv, vv, gro, med, cc, ph, ut, lo, ent, rate,
    h1, h2, h3, h4, h5, h6, h7, h8, h9, h10, h11, hsm⟩ := resolve_ok_inv h
  have ha : 0 ≤ a := career_data_nonneg _ (resolveAmount_ok_mem h1)
  have hhv := housing_data_nonneg _ (resolvePair_ok_mem h2)
  have hvv := vehicle_data_nonneg _ (resolvePair_ok_mem h3)
  have hgro : 0 ≤ gro := groceries_dict_nonneg _ _ (resolveAmount_ok_mem h4)
  have hmed : 0 ≤ med := medical_data_nonneg _ _ (resolveAmount_ok_mem h5)
  have hcc : 0 ≤ cc := resolveChildcare_nonneg h6
  have hph : 0 ≤ ph := phone_data_nonneg _ (resolveAmount_ok_mem h7)
  have hut : 0 ≤ ut := utilities_data_nonneg _ (resolveAmount_ok_mem h8)
  have hlo : 0 ≤ lo := loan_data_nonneg _ (resolveAmount_ok_mem h9)
  have hent : 0 ≤ ent := entertainment_data_nonneg _ (resolveAmount_ok_mem h10)
  have hrate : 0 ≤ rate := retirement_data_nonneg _ (resolveAmount_ok_mem h11)
  have hret : 0 ≤ a * rate := mul_nonneg ha hrate
  have hmiles : 0 ≤ (if sel.vehicle ≠ "No Car (Public Transport)" then sel.annual_miles else 0) := by
    split_ifs
    · exact hm
    · exact le_refl 0
  have hprice : 0 ≤ (if sel.vehicle ≠ "No Car (Public Transport)" then sel.gas_price else 0) := by
    split_ifs
    · exact hp
    · exact le_refl 0
  have hgas : 0 ≤ annual_gas_cost sel.vehicle vv.2
      (if sel.vehicle ≠ "No Car (Public Transport)" then sel.annual_miles else 0)
      (if sel.vehicle ≠ "No Car (Public Transport)" then sel.gas_price else 0) :=
    annual_gas_cost_nonneg hvv.2 hmiles hprice
  subst hsm
  constructor
  · simp only [mkSummary]
    linarith [hhv.1, hhv.2, hvv.1, hgas]
  · simp only [mkSummary]
    linarith [hhv.1, hhv.2, hvv.1, hgas]

/-- Witness for C10: the sample selection's expenses are nonnegative. -/
theorem total_expenses_nonneg_witness :
    (resolve sample_selection = Except.ok sample_summary ∧
      (0:ℚ) ≤ sample_selection.annual_miles ∧ (0:ℚ) ≤ sample_selection.gas_price) ∧
    (0 ≤ sample_summary.total_expenses ∧
      sample_summary.discretionary_income ≤
        sample_summary.annual_salary - sample_summary.tax_amount) :=
  ⟨⟨resolve_sample, by norm_num [sample_selection], by norm_num [sample_selection]⟩,
   total_expenses_nonneg sample_selection sample_summary resolve_sample
     (by norm_num [sample_selection]) (by norm_num [sample_selection])⟩

/-- C4 (counterexample): the claimed end-to-end scenario tax is wrong: the
bracket calculation gives `compute_taxes 90000 = 14000`, not 17500. -/
theorem scenario_90000_tax_not_17500 : compute_taxes 90000 ≠ 17500 := by
  rw [compute_taxes_eq]
  norm_num

/-- C4 (amended): with salary 90000 the bracket calculation yields tax
14000, and with total expenses 40000 the discretionary income is 36000; the
terminal waterfall step then has delta 0, start and end both equal to the
prior cumulative 36000, label 36000, and the terminal-positive (blue) color. -/
theorem scenario_90000_end_to_end :
    compute_taxes 90000 = 14000 ∧
    (90000 : ℚ) - compute_taxes 90000 - 40000 = 36000 ∧
    (waterfall 36000
        [("Starting Salary", 90000), ("Taxes", -14000), ("Other Expenses", -40000),
         ("Discretionary Income", 0)]).getLast? =
      some { category := "Discretionary Income", amount := 0, start := 36000, ending := 36000,
             label := 36000, color := renderColor ColorClass.terminalPositive } ∧
    pick_color_class 36000 "Discretionary Income" = ColorClass.terminalPositive := by
  refine ⟨?_, ?_, ?_, ?_⟩
  · rw [compute_taxes_eq]
    norm_num
  · rw [compute_taxes_eq]
    norm_num
  · norm_num [waterfall, buildSteps, get_label, pick_color, renderColor,
      List.getLast?_cons_cons, WStep.mk.injEq]
    simp
  · norm_num [pick_color_class]
    simp

end CareerSelector
